import Mathlib

/-!
Shallow embedding of the customer-intelligence application (a Node.js web
application that matches bank customers to financial products and sends
personalized marketing emails).  The embedding covers:

* the email preview cache (`getCachedEmail` / `setCachedEmail` in the web
  server file);
* the flat-file product store (`ProductDatabase`: `addProduct`, `getProduct`,
  `getProducts`, `updateProduct`, `deleteProduct`);
* the matcher (`IntelligentProductMatcher.matchCustomersToProducts`);
* the bulk e-mail dispatch pipeline
  (`IntelligentProductMatcher.generatePersonalizedEmails` followed by
  `IntelligentProductMatcher.sendEmails`), and the per-chunk send loop of the
  `POST /api/ai/send-emails-with-progress` web handler.

External effects (OpenAI completions, the Resend send API, the template
engine, wall-clock time) are modelled as explicit oracle parameters of type
`... → Except String ...`: a `.error e` value stands for the corresponding
JavaScript promise rejecting / function throwing with message `e`.
JavaScript's falsy checks on strings (`!s`, `s || d`) are modelled by
comparison with the empty string, which is the only falsy value a string
field can take at those call sites.
-/

namespace CustomerApp

/-! ### Preview cache

Embedding of the email preview cache of the web server:

```js
const emailPreviewCache = new Map();
function getCacheKey(customerId, productId) { return `${customerId}-${productId}`; }
function getCachedEmail(customerId, productId) {
    const key = getCacheKey(customerId, productId);
    const cached = emailPreviewCache.get(key);
    if (cached && Date.now() - cached.timestamp < 60 * 60 * 1000) { return cached.email; }
    return null;
}
function setCachedEmail(customerId, productId, email) {
    const key = getCacheKey(customerId, productId);
    emailPreviewCache.set(key, { email: email, timestamp: Date.now() });
}
```

The `Map` is modelled as an association list whose most recent binding for a
key shadows older ones (exactly the observable behaviour of `Map.set` /
`Map.get`).  `Date.now()` is passed in explicitly as a `Nat` millisecond
clock.  JavaScript computes `Date.now() - cached.timestamp` as a possibly
negative number; for `now ≥ timestamp` (the only physically reachable case)
truncated `Nat` subtraction agrees with it, and for `now < timestamp` both
the JS comparison and the `Nat` one yield a cache hit, so the embedding
agrees unconditionally. -/

/-- One entry of the preview cache: the stored email value together with the
`Date.now()` timestamp recorded by `setCachedEmail`.  The cached email is an
opaque value of type `E`. -/
structure CacheEntry (E : Type) where
  email : E
  timestamp : Nat
deriving Repr, DecidableEq

/-- The preview cache: association list keyed by the string produced by
`getCacheKey`; the head-most binding is the current one. -/
abbrev PreviewCache (E : Type) := List (String × CacheEntry E)

/-- JS `getCacheKey(customerId, productId)`, i.e. `` `${customerId}-${productId}` ``. -/
def getCacheKey (customerId productId : String) : String :=
  customerId ++ "-" ++ productId

/-- One hour in milliseconds, the cache expiry constant `60 * 60 * 1000`. -/
def cacheTTL : Nat := 60 * 60 * 1000

/-- JS `getCachedEmail(customerId, productId)` at clock value `now`. -/
def getCachedEmail (cache : PreviewCache E) (now : Nat) (customerId productId : String) :
    Option E :=
  match cache.lookup (getCacheKey customerId productId) with
  | some cached => if now - cached.timestamp < cacheTTL then some cached.email else none
  | none => none

/-- JS `setCachedEmail(customerId, productId, email)` at clock value `now`. -/
def setCachedEmail (cache : PreviewCache E) (now : Nat) (customerId productId : String)
    (email : E) : PreviewCache E :=
  (getCacheKey customerId productId, { email := email, timestamp := now }) :: cache

/-! ### Product store

Embedding of `ProductDatabase` (product-database.js).  The backing `Map` is
modelled as a `List DbProduct` in insertion order (a JS `Map` iterates in
insertion order and `addProduct` is the only way a new key enters the map,
so keys are unique and `Array.from(this.products.values())` is exactly this
list).  `saveDatabase` only rewrites the backing file and is a no-op on the
in-memory state, so it is not modelled.  Timestamps (`new Date().toISOString()`)
are passed in as an explicit `now : String` argument.  A JS record field that
is absent or empty (falsy) is modelled as `""`; `deletedAt := ""` means the
field is absent. -/

/-- A stored product record.  The JS objects are dynamic; the fields below are
the ones `ProductDatabase` reads or writes.  `ptype` renders the JS field
`type` (a reserved word in Lean). -/
structure DbProduct where
  id : String
  name : String
  ptype : String
  description : String
  status : String
  createdAt : String
  updatedAt : String
  deletedAt : String
deriving Repr, DecidableEq, Inhabited

/-- The in-memory product map, in insertion order. -/
abbrev ProductDb := List DbProduct

/-- The timestamp/status stamping `addProduct` performs before inserting:
`product.createdAt = ...; product.updatedAt = ...; product.status = product.status || 'active'`. -/
def stampProduct (now : String) (product : DbProduct) : DbProduct :=
  { product with
    createdAt := now
    updatedAt := now
    status := if product.status = "" then "active" else product.status }

/-- The body of the `try` block of `addProduct`: validation, duplicate check,
timestamp/status stamping, insertion.  `.error` is a thrown `Error`. -/
def addProductTry (db : ProductDb) (now : String) (product : DbProduct) :
    Except String ProductDb :=
  if product.id = "" ∨ product.name = "" ∨ product.ptype = "" then
    .error "Product must have id, name, and type"
  else if db.any (fun q => q.id = product.id) then
    .error ("Product with ID " ++ product.id ++ " already exists")
  else
    .ok (db ++ [stampProduct now product])

/-- JS `addProduct(product)`.  The result is the pair (returned boolean, new
state); the surrounding `Except` is the channel for exceptions escaping to
the caller.  The JS method wraps its whole body in `try/catch` and the catch
arm returns `false`, so no exception ever escapes: the result is always `.ok`. -/
def addProduct (db : ProductDb) (now : String) (product : DbProduct) :
    Except String (Bool × ProductDb) :=
  match addProductTry db now product with
  | .ok db2 => .ok (true, db2)
  | .error _ => .ok (false, db)

/-- JS `getProduct(id)`: `this.products.get(id) || null`. -/
def getProduct (db : ProductDb) (id : String) : Option DbProduct :=
  db.find? (fun p => p.id = id)

/-- The filter argument of `getProducts`.  A `none` field is an `undefined`
JS property.  The `active` filter only tests `filters.active !== undefined`,
never the value, so a `Bool` payload covers the behaviour of every value. -/
structure ProductFilters where
  ptype : Option String := none
  status : Option String := none
  active : Option Bool := none
  search : Option String := none
deriving Repr

/-- Auxiliary: does the character list `s` contain `t` as a contiguous
sub-list?  (Semantics of JS `String.prototype.includes`.) -/
def charsContain (t : List Char) : List Char → Bool
  | [] => t.isEmpty
  | c :: rest => t.isPrefixOf (c :: rest) || charsContain t rest

/-- JS `s.includes(t)` on strings. -/
def strIncludes (s t : String) : Bool :=
  charsContain t.data s.data

/-- JS `getProducts(filters)`: values of the map, narrowed by each defined
filter in order (type, status, active, search). -/
def getProducts (db : ProductDb) (filters : ProductFilters) : List DbProduct :=
  let products := db
  let products := match filters.ptype with
    | some t => products.filter (fun p => p.ptype = t)
    | none => products
  let products := match filters.status with
    | some s => products.filter (fun p => p.status = s)
    | none => products
  let products := match filters.active with
    | some _ => products.filter (fun p => p.status = "active")
    | none => products
  let products := match filters.search with
    | some q => products.filter (fun p =>
        strIncludes p.name.toLower q.toLower || strIncludes p.description.toLower q.toLower)
    | none => products
  products

/-- The body of the `try` block of `updateProduct`.  The JS patch object is
merged with `Object.assign(product, updates)`; the merge is modelled as an
opaque update function `updates : DbProduct → DbProduct` applied to the
stored record, after which `updatedAt` is refreshed. -/
def updateProductTry (db : ProductDb) (now : String) (id : String)
    (updates : DbProduct → DbProduct) : Except String ProductDb :=
  match db.find? (fun p => p.id = id) with
  | none => .error ("Product with ID " ++ id ++ " not found")
  | some _ => .ok (db.map (fun p =>
      if p.id = id then { updates p with updatedAt := now } else p))

/-- JS `updateProduct(id, updates)`: `try/catch` around `updateProductTry`,
returning `false` (state unchanged) when the body throws. -/
def updateProduct (db : ProductDb) (now : String) (id : String)
    (updates : DbProduct → DbProduct) : Except String (Bool × ProductDb) :=
  match updateProductTry db now id updates with
  | .ok db2 => .ok (true, db2)
  | .error _ => .ok (false, db)

/-- The body of the `try` block of `deleteProduct`: hard delete removes the
record from the map; soft delete flips its status to `inactive` and stamps
`deletedAt` / `updatedAt`. -/
def deleteProductTry (db : ProductDb) (now : String) (id : String) (hardDelete : Bool) :
    Except String ProductDb :=
  match db.find? (fun p => p.id = id) with
  | none => .error ("Product with ID " ++ id ++ " not found")
  | some _ =>
    if hardDelete then
      .ok (db.filter (fun p => ¬ p.id = id))
    else
      .ok (db.map (fun p =>
        if p.id = id then { p with status := "inactive", deletedAt := now, updatedAt := now }
        else p))

/-- JS `deleteProduct(id, hardDelete = false)`: `try/catch` around
`deleteProductTry`, returning `false` (state unchanged) when the body throws. -/
def deleteProduct (db : ProductDb) (now : String) (id : String) (hardDelete : Bool) :
    Except String (Bool × ProductDb) :=
  match deleteProductTry db now id hardDelete with
  | .ok db2 => .ok (true, db2)
  | .error _ => .ok (false, db)

/-! ### Matcher and bulk email dispatcher

Embedding of `IntelligentProductMatcher` (intelligent-product-matcher.js).
The OpenAI chat-completion calls, the `emailEngine.generateEmail` template
engine and the Resend send API are external collaborators; each is an oracle
parameter returning `Except String _` (`.error e` models a rejection /
thrown error whose `message` is `e`).  The `await setTimeout` rate-limiting
delays have no observable effect on the pure state and are dropped. -/

/-- A customer row read from the spreadsheet.  Fields are the ones the
matcher and dispatcher read; an absent field is `""`. -/
structure Customer where
  id : String
  first_name : String
  last_name : String
  email : String
  city : String
  province : String
  profile : String
  notes : String
deriving Repr, DecidableEq, Inhabited

/-- The `recommendedProduct` object of a parsed AI matching reply. -/
structure RecommendedProduct where
  productId : String
  productName : String
  confidenceScore : Nat
  matchReason : String
deriving Repr, DecidableEq, Inhabited

/-- The `personalizationInsights` object of a parsed AI matching reply. -/
structure PersonalizationInsights where
  primaryBenefit : String
  secondaryBenefits : List String
deriving Repr, DecidableEq, Inhabited

/-- The `offerCustomization` object of a parsed AI matching reply.  An absent
`specialOffer` is `""` (falsy). -/
structure OfferCustomization where
  specialOffer : String
deriving Repr, DecidableEq, Inhabited

/-- A parsed AI matching reply (the fields of the prompt's JSON schema that
the rest of the pipeline reads). -/
structure Recommendation where
  recommendedProduct : RecommendedProduct
  personalizationInsights : PersonalizationInsights
  offerCustomization : OfferCustomization
  emailSubject : String
deriving Repr, DecidableEq, Inhabited

/-- A match entry as produced by `matchCustomersToProducts`.  A failed entry
in JS carries only `customer`, `success`, `error`; its other fields are never
read and are modelled by `default` values. -/
structure MatchItem where
  customer : Customer
  success : Bool
  recommendation : Recommendation
  matchedAt : String
  error : String
deriving Repr, DecidableEq, Inhabited

/-- JS `matchSingleCustomer(customer, products)`: one OpenAI call (oracle
`ai`, covering the HTTP call and the `JSON.parse` of the reply) producing a
match entry, with any failure re-thrown as `AI matching failed: ...`.
`matchedAt` is the `new Date().toISOString()` stamp. -/
def matchSingleCustomer {P : Type} (ai : Customer → List P → Except String Recommendation)
    (matchedAt : String) (customer : Customer) (products : List P) :
    Except String MatchItem :=
  match ai customer products with
  | .ok matchResult =>
    .ok { customer := customer
          success := true
          recommendation := matchResult
          matchedAt := matchedAt
          error := "" }
  | .error e => .error ("AI matching failed: " ++ e)

/-- JS `matchCustomersToProducts(customers, products)`: sequential loop over
the customers; each iteration's failure is caught and pushed as a failed
entry `{ customer, success: false, error }`. -/
def matchCustomersToProducts {P : Type}
    (ai : Customer → List P → Except String Recommendation) (matchedAt : String)
    (customers : List Customer) (products : List P) : List MatchItem :=
  customers.map (fun customer =>
    match matchSingleCustomer ai matchedAt customer products with
    | .ok m => m
    | .error e =>
      { customer := customer
        success := false
        recommendation := default
        matchedAt := ""
        error := e })

/-- The `personalizedProduct` object built by `generatePersonalizedEmails`
for a successful match. -/
structure PersonalizedProduct where
  id : String
  name : String
  details : String
  expiryDate : String
  offerCode : String
  campaign : String
deriving Repr, DecidableEq, Inhabited

/-- A generated email entry as produced by `generatePersonalizedEmails`.
`matchItem` renders the JS field `match` (a reserved word in Lean).  On a
failed entry JS only sets `customer`, `success`, `error`; the other fields
are never read for failed entries and are modelled by `default` values. -/
structure GenEmail where
  customer : Customer
  matchItem : MatchItem
  subject : String
  content : String
  personalizedProduct : PersonalizedProduct
  nudgingTechniques : List String
  nudgeOptimized : Bool
  fallbackMode : Bool
  success : Bool
  error : String
deriving Repr, DecidableEq, Inhabited

/-- The value returned by `generateNudgeOptimizedEmail` on success. -/
structure NudgeEmail where
  subject : String
  htmlContent : String
  plainTextContent : String
  nudgingTechniques : List String
deriving Repr, DecidableEq, Inhabited

/-- Oracles and clock inputs of the email-generation phase.  `nudge` models
`generateNudgeOptimizedEmail(match)` (OpenAI call, JSON parse and structure
validation); `engineGenerate` models `emailEngine.generateEmail(customer,
personalizedProduct)`; `now` is `Date.now()` (used by `generateOfferCode`);
`expiryDate` is the locale-formatted date string `generateOfferExpiry()`
computes from the current date. -/
structure GenEnv where
  nudge : MatchItem → Except String NudgeEmail
  engineGenerate : Customer → PersonalizedProduct → Except String String
  now : Nat
  expiryDate : String

/-- JS `String.prototype.slice(-6)`: the last six characters (or the whole
string if shorter). -/
def sliceLast6 (s : String) : String :=
  String.mk (s.data.reverse.take 6).reverse

/-- JS `generateOfferCode(customer)`: `CB` + initials + last six digits of
`Date.now()`.  `charAt(0)` of an empty string is the empty string, exactly
`String.take 1`. -/
def generateOfferCode (now : Nat) (customer : Customer) : String :=
  "CB" ++ customer.first_name.take 1 ++ customer.last_name.take 1 ++ sliceLast6 (toString now)

/-- JS `buildPersonalizedProductDetails(match)`: deterministic string
assembly from the recommendation fields. -/
def buildPersonalizedProductDetails (m : MatchItem) : String :=
  let recommendation := m.recommendation
  let customer := m.customer
  "Dear " ++ customer.first_name ++ ",\n\n" ++
  "Based on your profile, we\x27ve identified the perfect financial solution for you: " ++
    recommendation.recommendedProduct.productName ++ ".\n\n" ++
  recommendation.recommendedProduct.matchReason ++ "\n\n" ++
  "Here\x27s what makes this offer special for you:\n" ++
  "• " ++ recommendation.personalizationInsights.primaryBenefit ++ "\n" ++
  String.join (recommendation.personalizationInsights.secondaryBenefits.map
    (fun benefit => "• " ++ benefit ++ "\n")) ++
  (if recommendation.offerCustomization.specialOffer ≠ "" then
    "\nExclusive Offer: " ++ recommendation.offerCustomization.specialOffer ++ "\n"
  else "") ++
  "\nThis recommendation is based on our analysis of your profile and current financial products market. We believe this product aligns perfectly with your financial goals and current life stage."

/-- The `personalizedProduct` object built (identically) in both the nudge
and the fallback branch of `generatePersonalizedEmails`. -/
def mkPersonalizedProduct (env : GenEnv) (m : MatchItem) : PersonalizedProduct :=
  { id := m.recommendation.recommendedProduct.productId
    name := m.recommendation.recommendedProduct.productName
    details := buildPersonalizedProductDetails m
    expiryDate := env.expiryDate
    offerCode := generateOfferCode env.now m.customer
    campaign := "ai_matched_offers_2025" }

/-- A failed generated-email entry `{ customer, success: false, error }`. -/
def failedGenEmail (customer : Customer) (error : String) : GenEmail :=
  { customer := customer
    matchItem := default
    subject := ""
    content := ""
    personalizedProduct := default
    nudgingTechniques := []
    nudgeOptimized := false
    fallbackMode := false
    success := false
    error := error }

/-- One iteration of the `generatePersonalizedEmails` loop: a failed match is
passed through as a failed entry; a successful match first attempts the
nudge-optimized generation, then falls back to the template engine, and a
failure of both becomes a failed entry carrying the fallback error. -/
def generateEmailForMatch (env : GenEnv) (m : MatchItem) : GenEmail :=
  if !m.success then
    failedGenEmail m.customer m.error
  else
    match env.nudge m with
    | .ok nudgeEmail =>
      let personalizedProduct := mkPersonalizedProduct env m
      { customer := m.customer
        matchItem := m
        subject := nudgeEmail.subject
        content := nudgeEmail.htmlContent
        personalizedProduct := personalizedProduct
        nudgingTechniques := nudgeEmail.nudgingTechniques
        nudgeOptimized := true
        fallbackMode := false
        success := true
        error := "" }
    | .error _ =>
      let personalizedProduct := mkPersonalizedProduct env m
      match env.engineGenerate m.customer personalizedProduct with
      | .ok emailContent =>
        { customer := m.customer
          matchItem := m
          subject := m.recommendation.emailSubject
          content := emailContent
          personalizedProduct := personalizedProduct
          nudgingTechniques := []
          nudgeOptimized := false
          fallbackMode := true
          success := true
          error := "" }
      | .error fallbackError => failedGenEmail m.customer fallbackError

/-- JS `generatePersonalizedEmails(matches, emailEngine)`: the sequential
loop over the matches, one output entry pushed per input match. -/
def generatePersonalizedEmails (env : GenEnv) (matchList : List MatchItem) : List GenEmail :=
  matchList.map (generateEmailForMatch env)

/-- A Resend batch payload entry as built by `sendEmails`.  `fromAddr`
renders the JS field `from` (a reserved word in Lean); `headers` lists the
four custom `X-...` headers in source order. -/
structure EmailPayload where
  fromAddr : String
  toAddrs : List String
  subject : String
  html : String
  headers : List (String × String)
deriving Repr, DecidableEq, Inhabited

/-- One element of `batchResult.data.data` in the Resend batch reply.  An
absent / falsy `id`, `error` or `message` field is `""`. -/
structure BatchItemResult where
  id : String
  error : String
  message : String
deriving Repr, DecidableEq, Inhabited

/-- A per-recipient send outcome pushed into `results` by `sendEmails` (and,
with the same shape, by the progress route).  Fields not set on a branch
are `""`/`false`. -/
structure SendResult where
  customer : Customer
  emailId : String
  success : Bool
  sentAt : String
  subject : String
  productMatched : String
  error : String
deriving Repr, DecidableEq, Inhabited

/-- Oracle and clock inputs of the sending phase.  `batchSend` models
`resendClient.batch.send(batchPayload)` together with the in-`try` handling
of an error-shaped or malformed reply, both of which throw and are treated
identically to a rejected call: `.ok items` is a well-formed reply
(`batchResult.data.data`), `.error e` a rejection/throw with message `e`.
`sentAt` is the `new Date().toISOString()` stamp of successful sends. -/
structure SendEnv where
  batchSend : List EmailPayload → Except String (List BatchItemResult)
  sentAt : String

/-- The options object of `sendEmails`; absent fields are falsy (`""`/`0`)
and replaced by the defaults `'🏦 Customer Bank'` and `100` via `||`. -/
structure SendOptions where
  fromName : String := ""
  batchSize : Nat := 0

/-- The payload `sendEmails` builds for one valid email. -/
def mkBatchPayload (fromName : String) (email : GenEmail) : EmailPayload :=
  { fromAddr := fromName ++ " <no-reply@customerbank.com>"
    toAddrs := [email.customer.email]
    subject := email.subject
    html := email.content
    headers :=
      [("X-Customer-ID", if email.customer.id = "" then "unknown" else email.customer.id),
       ("X-Product-ID", email.personalizedProduct.id),
       ("X-Campaign", email.personalizedProduct.campaign),
       ("X-Offer-Code", email.personalizedProduct.offerCode)] }

/-- The failure result `sendEmails` records for every email of a batch whose
`batch.send` call threw with message `e`. -/
def batchFailureResult (e : String) (email : GenEmail) : SendResult :=
  { customer := email.customer
    emailId := ""
    success := false
    sentAt := ""
    subject := ""
    productMatched := ""
    error := "Batch send failed: " ++ e }

/-- Processing of a well-formed batch reply: `batchResult.data.data.forEach`
pairs the i-th reply item with the i-th email of the batch; an item with an
`id` is a success, otherwise a failure with the item's error/message text.
(The JS `forEach` indexes `batch[index]`; for the length-matching replies the
Resend API produces — one item per submitted message — this is exactly the
positional pairing `List.zip` performs.) -/
def batchItemOutcome (sentAt : String) (p : BatchItemResult × GenEmail) : SendResult :=
  let item := p.1
  let email := p.2
  if item.id ≠ "" then
    { customer := email.customer
      emailId := item.id
      success := true
      sentAt := sentAt
      subject := email.subject
      productMatched := email.matchItem.recommendation.recommendedProduct.productName
      error := "" }
  else
    { customer := email.customer
      emailId := ""
      success := false
      sentAt := ""
      subject := ""
      productMatched := ""
      error := if item.error ≠ "" then item.error
               else if item.message ≠ "" then item.message
               else "Unknown batch send error" }

/-- See `batchItemOutcome` for the translation of the `forEach` body. -/
def processBatchReply (sentAt : String) (batch : List GenEmail)
    (items : List BatchItemResult) : List SendResult :=
  (items.zip batch).map (batchItemOutcome sentAt)

/-- One iteration of the batch loop of `sendEmails`: build the payload, call
the batch API, convert the reply (or the caught error) into per-recipient
results. -/
def processBatch (env : SendEnv) (fromName : String) (batch : List GenEmail) :
    List SendResult :=
  match env.batchSend (batch.map (mkBatchPayload fromName)) with
  | .ok items => processBatchReply env.sentAt batch items
  | .error e => batch.map (batchFailureResult e)

/-- Structural (fuel-indexed) form of the batch loop of `sendEmails`; the
fuel is an upper bound on the number of chunks still to process and is
consumed one unit per chunk.  `sendBatchesLoop` instantiates it with the
list length, which always suffices. -/
def sendBatchesLoopAux (env : SendEnv) (fromName : String) (c : Nat) :
    Nat → List GenEmail → List SendResult
  | _, [] => []
  | 0, _ :: _ => []
  | fuel + 1, email :: rest =>
    processBatch env fromName (email :: rest.take c) ++
      sendBatchesLoopAux env fromName c fuel (rest.drop c)

/-- The `for (let i = 0; i < validEmails.length; i += batchSize)` loop of
`sendEmails`, processing chunks of size `c + 1` front to back.  (The JS
`batchSize` is always positive after the `|| 100` default, so writing the
chunk size as `c + 1` loses no reachable case.) -/
def sendBatchesLoop (env : SendEnv) (fromName : String) (c : Nat)
    (l : List GenEmail) : List SendResult :=
  sendBatchesLoopAux env fromName c l.length l

/-- The failure result recorded up front for an email whose generation
failed: `error: email.error || 'Email generation failed'`. -/
def genFailureResult (email : GenEmail) : SendResult :=
  { customer := email.customer
    emailId := ""
    success := false
    sentAt := ""
    subject := ""
    productMatched := ""
    error := if email.error = "" then "Email generation failed" else email.error }

/-- JS `options.fromName || '🏦 Customer Bank'`. -/
def effectiveFromName (options : SendOptions) : String :=
  if options.fromName = "" then "🏦 Customer Bank" else options.fromName

/-- JS `options.batchSize || 100` (`0`, like an absent field, is falsy). -/
def effectiveBatchSize (options : SendOptions) : Nat :=
  if options.batchSize = 0 then 100 else options.batchSize

/-- JS `sendEmails(emails, options = {})`: defaults `fromName` and
`batchSize`, records a failure result for every email that failed
generation, returns early if no email is valid, then runs the batch loop
over the valid emails and appends its outcomes. -/
def sendEmails (env : SendEnv) (options : SendOptions) (emails : List GenEmail) :
    List SendResult :=
  let fromName := effectiveFromName options
  let batchSize := effectiveBatchSize options
  let validEmails := emails.filter (fun e => e.success)
  let failedEmails := emails.filter (fun e => !e.success)
  let results := failedEmails.map genFailureResult
  if validEmails.isEmpty then results
  else results ++ sendBatchesLoop env fromName (batchSize - 1) validEmails

/-- One dispatch run: `generatePersonalizedEmails` over the input matches
followed by `sendEmails` over the generated emails. -/
def dispatchRun (genv : GenEnv) (senv : SendEnv) (options : SendOptions)
    (matchList : List MatchItem) : List SendResult :=
  sendEmails senv options (generatePersonalizedEmails genv matchList)

/-! ### The progress route's per-chunk send loop

Embedding of the inner send of `POST /api/ai/send-emails-with-progress`
(server file): within a chunk of (up to) 3 emails, each email is sent with an
individual `resendClient.emails.send` call whose rejection is caught inside
its own async closure, and `Promise.all` collects the per-email outcome
objects in batch order. -/

/-- A reply of `resendClient.emails.send`: the route reads
`result?.data?.id || result?.id || 'unknown'`; absent fields are `""`. -/
structure ResendReply where
  dataId : String
  topId : String
deriving Repr, DecidableEq, Inhabited

/-- The recipient address the route computes:
`email.customer.email || first_name.toLowerCase() + '.' + last_name.toLowerCase() + '@example.com'`. -/
def routeCustomerEmail (customer : Customer) : String :=
  if customer.email = "" then
    customer.first_name.toLower ++ "." ++ customer.last_name.toLower ++ "@example.com"
  else customer.email

/-- The payload the route passes to `resendClient.emails.send` for one email. -/
def mkRoutePayload (email : GenEmail) : EmailPayload :=
  { fromAddr := "Customer Bank Offers <no-reply@noreply.kidsched.com>"
    toAddrs := [routeCustomerEmail email.customer]
    subject := email.subject
    html := email.content
    headers :=
      [("X-Customer-ID", if email.customer.id = "" then "unknown" else email.customer.id),
       ("X-Product-ID", email.personalizedProduct.id),
       ("X-Campaign", email.personalizedProduct.campaign),
       ("X-Offer-Code", email.personalizedProduct.offerCode)] }

/-- One async closure of the route's `batch.map`: send, and convert either
the reply or the caught rejection into an outcome object. -/
def routeSendOne (send : EmailPayload → Except String ResendReply) (sentAt : String)
    (email : GenEmail) : SendResult :=
  match send (mkRoutePayload email) with
  | .ok reply =>
    { customer := email.customer
      emailId := if reply.dataId ≠ "" then reply.dataId
                 else if reply.topId ≠ "" then reply.topId
                 else "unknown"
      success := true
      sentAt := sentAt
      subject := email.subject
      productMatched := email.matchItem.recommendation.recommendedProduct.productName
      error := "" }
  | .error e =>
    { customer := email.customer
      emailId := ""
      success := false
      sentAt := ""
      subject := ""
      productMatched := ""
      error := e }

/-- The route's processing of one chunk: `batch.map(async (email) => ...)`
followed by `Promise.all`, i.e. the in-order list of per-email outcomes. -/
def routeProcessBatch (send : EmailPayload → Except String ResendReply) (sentAt : String)
    (batch : List GenEmail) : List SendResult :=
  batch.map (routeSendOne send sentAt)

/-! ### Helper notions and lemmas

`chunkList c l` is the list of chunks of size `c + 1` that the
`i += batchSize` loops of `sendEmails` (and of the progress route) walk
through, front to back.  It is used to state and prove the chunking
properties of `sendBatchesLoop`. -/

/-- Structural (fuel-indexed) form of `chunkList`; the fuel bounds the
number of chunks still to produce. -/
def chunkListAux (c : Nat) : Nat → List α → List (List α)
  | _, [] => []
  | 0, _ :: _ => []
  | fuel + 1, x :: rest => (x :: rest.take c) :: chunkListAux c fuel (rest.drop c)

/-- The size-`c + 1` chunks of a list, in order. -/
def chunkList (c : Nat) (l : List α) : List (List α) :=
  chunkListAux c l.length l

/-- The fuel of `chunkListAux` is irrelevant as long as it reaches the list
length. -/
theorem chunkListAux_fuel (c : Nat) :
    ∀ (l : List α) (f1 f2 : Nat), l.length ≤ f1 → l.length ≤ f2 →
      chunkListAux c f1 l = chunkListAux c f2 l
  | [], f1, f2, _, _ => by cases f1 <;> cases f2 <;> rfl
  | x :: rest, 0, _, h1, _ => by simp at h1
  | x :: rest, _ + 1, 0, _, h2 => by simp at h2
  | x :: rest, f1 + 1, f2 + 1, h1, h2 => by
    simp only [chunkListAux]
    congr 1
    exact chunkListAux_fuel c (rest.drop c) f1 f2
      (by simp only [List.length_cons] at h1; simp only [List.length_drop]; omega)
      (by simp only [List.length_cons] at h2; simp only [List.length_drop]; omega)
termination_by l => l.length
decreasing_by simp [List.length_drop]; omega

/-- The step equation of `chunkList` on a non-empty list. -/
theorem chunkList_cons (c : Nat) (x : α) (rest : List α) :
    chunkList c (x :: rest) = (x :: rest.take c) :: chunkList c (rest.drop c) := by
  unfold chunkList
  simp only [List.length_cons, chunkListAux]
  congr 1
  exact chunkListAux_fuel c (rest.drop c) rest.length (rest.drop c).length
    (by simp [List.length_drop]) (Nat.le_refl _)

/-- The fuel of `sendBatchesLoopAux` is irrelevant as long as it reaches the
list length. -/
theorem sendBatchesLoopAux_fuel (env : SendEnv) (fromName : String) (c : Nat) :
    ∀ (l : List GenEmail) (f1 f2 : Nat), l.length ≤ f1 → l.length ≤ f2 →
      sendBatchesLoopAux env fromName c f1 l = sendBatchesLoopAux env fromName c f2 l
  | [], f1, f2, _, _ => by cases f1 <;> cases f2 <;> rfl
  | x :: rest, 0, _, h1, _ => by simp at h1
  | x :: rest, _ + 1, 0, _, h2 => by simp at h2
  | x :: rest, f1 + 1, f2 + 1, h1, h2 => by
    simp only [sendBatchesLoopAux]
    congr 1
    exact sendBatchesLoopAux_fuel env fromName c (rest.drop c) f1 f2
      (by simp only [List.length_cons] at h1; simp only [List.length_drop]; omega)
      (by simp only [List.length_cons] at h2; simp only [List.length_drop]; omega)
termination_by l => l.length
decreasing_by simp [List.length_drop]; omega

/-- The step equation of the batch loop on a non-empty list. -/
theorem sendBatchesLoop_cons (env : SendEnv) (fromName : String) (c : Nat)
    (x : GenEmail) (rest : List GenEmail) :
    sendBatchesLoop env fromName c (x :: rest) =
      processBatch env fromName (x :: rest.take c) ++
        sendBatchesLoop env fromName c (rest.drop c) := by
  unfold sendBatchesLoop
  simp only [List.length_cons, sendBatchesLoopAux]
  congr 1
  exact sendBatchesLoopAux_fuel env fromName c (rest.drop c) rest.length
    (rest.drop c).length (by simp [List.length_drop]) (Nat.le_refl _)

/-- The batch loop of `sendEmails` is the in-order concatenation of the
per-chunk results: chunk `k + 1` is processed whatever `processBatch`
returned for chunk `k`. -/
theorem sendBatchesLoop_eq_flatten (env : SendEnv) (fromName : String) (c : Nat) :
    ∀ l : List GenEmail,
      sendBatchesLoop env fromName c l =
        ((chunkList c l).map (processBatch env fromName)).flatten
  | [] => by simp [sendBatchesLoop, sendBatchesLoopAux, chunkList, chunkListAux]
  | x :: rest => by
    rw [sendBatchesLoop_cons, chunkList_cons]
    simp only [List.map_cons, List.flatten_cons]
    congr 1
    exact sendBatchesLoop_eq_flatten env fromName c (rest.drop c)
termination_by l => l.length
decreasing_by simp [List.length_drop]; omega

/-- Chunking a list into chunks of size `c + 1` yields exactly
`⌈length / (c + 1)⌉ = (length + c) / (c + 1)` chunks. -/
theorem chunkList_length (c : Nat) :
    ∀ l : List α, (chunkList c l).length = (l.length + c) / (c + 1)
  | [] => by
    simp only [chunkList, chunkListAux, List.length_nil, Nat.zero_add]
    exact (Nat.div_eq_of_lt (by omega)).symm
  | x :: rest => by
    rw [chunkList_cons]
    simp only [List.length_cons]
    rw [chunkList_length c (rest.drop c)]
    simp only [List.length_drop]
    rcases le_or_lt c rest.length with h | h
    · have h1 : rest.length - c + c = rest.length := by omega
      rw [h1]
      have h2 : rest.length + 1 + c = rest.length + (c + 1) := by omega
      rw [h2, Nat.add_div_right _ (Nat.succ_pos c)]
    · have h1 : rest.length - c = 0 := by omega
      rw [h1]
      have h2 : (0 + c) / (c + 1) = 0 := Nat.div_eq_of_lt (by omega)
      have h3 : (rest.length + 1 + c) / (c + 1) = 1 := by
        rw [Nat.div_eq_sub_div (Nat.succ_pos c) (by omega)]
        rw [Nat.div_eq_of_lt (by omega)]
      omega
termination_by l => l.length
decreasing_by simp [List.length_drop]; omega

/-- The chunks concatenate back to the original list. -/
theorem chunkList_flatten (c : Nat) :
    ∀ l : List α, (chunkList c l).flatten = l
  | [] => by simp [chunkList, chunkListAux]
  | x :: rest => by
    rw [chunkList_cons]
    simp only [List.flatten_cons]
    rw [chunkList_flatten c (rest.drop c)]
    simp [List.take_append_drop]
termination_by l => l.length
decreasing_by simp [List.length_drop]; omega

/-- The generation phase preserves each entry's customer. -/
theorem generateEmailForMatch_customer (env : GenEnv) (m : MatchItem) :
    (generateEmailForMatch env m).customer = m.customer := by
  unfold generateEmailForMatch
  cases m.success <;>
    simp [failedGenEmail] <;>
    rcases env.nudge m with _ | _ <;>
    simp [failedGenEmail] <;>
    rcases env.engineGenerate m.customer (mkPersonalizedProduct env m) with _ | _ <;>
    simp [failedGenEmail]

/-- Auxiliary: a length-matching reply zipped against its batch projects, on
any per-pair function that only reads the second component through `g`, to a
plain map over the batch. -/
theorem zip_map_of_length_eq {α β γ : Type} (g : β → γ) :
    ∀ (xs : List α) (ys : List β), xs.length = ys.length →
      (xs.zip ys).map (fun p => g p.2) = ys.map g
  | [], [], _ => rfl
  | [], _ :: _, h => by simp at h
  | _ :: _, [], h => by simp at h
  | x :: xs, y :: ys, h => by
    simp only [List.zip_cons_cons, List.map_cons, List.cons.injEq, true_and]
    exact zip_map_of_length_eq g xs ys (by simpa using h)

/-- Hypothesis on the batch-send oracle: a fulfilled reply carries one item
per submitted message (the documented shape of the Resend batch endpoint). -/
def ReplyLengthOk (env : SendEnv) : Prop :=
  ∀ ps items, env.batchSend ps = .ok items → items.length = ps.length

/-- The outcome object built for one reply item carries the customer of the
email it was paired with. -/
theorem batchItemOutcome_customer (sentAt : String) (p : BatchItemResult × GenEmail) :
    (batchItemOutcome sentAt p).customer = p.2.customer := by
  by_cases h : p.1.id = "" <;> simp [batchItemOutcome, h]

/-- A length-matching batch reply produces one result per email of the
batch, carrying the batch's customers in order. -/
theorem processBatchReply_customers (sentAt : String) (items : List BatchItemResult)
    (batch : List GenEmail) (h : items.length = batch.length) :
    (processBatchReply sentAt batch items).map (fun r => r.customer) =
      batch.map (fun e => e.customer) := by
  unfold processBatchReply
  rw [List.map_map]
  have hcomp : ((fun r => r.customer) ∘ batchItemOutcome sentAt) =
      (fun (p : BatchItemResult × GenEmail) => p.2.customer) := by
    funext p
    exact batchItemOutcome_customer sentAt p
  rw [hcomp]
  exact zip_map_of_length_eq (fun e => e.customer) items batch h

/-- Each chunk's results carry exactly the chunk's customers, in order. -/
theorem processBatch_customers (env : SendEnv) (fromName : String)
    (batch : List GenEmail) (hlen : ReplyLengthOk env) :
    (processBatch env fromName batch).map (fun r => r.customer) =
      batch.map (fun e => e.customer) := by
  unfold processBatch
  cases hsend : env.batchSend (batch.map (mkBatchPayload fromName)) with
  | error e => simp [batchFailureResult]
  | ok items =>
    exact processBatchReply_customers env.sentAt items batch
      (by simpa using hlen _ _ hsend)

/-- The whole batch loop carries exactly the valid emails' customers, in
order. -/
theorem sendBatchesLoop_customers (env : SendEnv) (fromName : String) (c : Nat)
    (l : List GenEmail) (hlen : ReplyLengthOk env) :
    (sendBatchesLoop env fromName c l).map (fun r => r.customer) =
      l.map (fun e => e.customer) := by
  rw [sendBatchesLoop_eq_flatten]
  rw [List.map_flatten, List.map_map]
  have hmap : ((List.map (fun r => r.customer)) ∘ processBatch env fromName) =
      fun b => b.map (fun e => e.customer) := by
    funext b
    exact processBatch_customers env fromName b hlen
  rw [hmap, ← List.map_flatten, chunkList_flatten]

/-- The whole batch loop produces one result per valid email. -/
theorem sendBatchesLoop_length (env : SendEnv) (fromName : String) (c : Nat)
    (l : List GenEmail) (hlen : ReplyLengthOk env) :
    (sendBatchesLoop env fromName c l).length = l.length := by
  have h := sendBatchesLoop_customers env fromName c l hlen
  have := congrArg List.length h
  simpa using this

/-- Partitioning a list by a Boolean predicate, failures first, is a
permutation of the list. -/
theorem filter_not_append_filter_perm (p : α → Bool) (l : List α) :
    (l.filter (fun x => !p x) ++ l.filter p).Perm l := by
  induction l with
  | nil => simp
  | cons x xs ih =>
    cases hx : p x with
    | true =>
      simp only [List.filter_cons, hx, Bool.not_true, cond_false, cond_true]
      exact (List.perm_middle).trans (ih.cons x)
    | false =>
      simp only [List.filter_cons, hx, Bool.not_false, cond_false, cond_true]
      exact (ih.cons x)

/-! ### Concrete data used by witnesses and counterexamples -/

/-- A concrete valid product input (no `status`, fresh timestamps). -/
def prodW : DbProduct :=
  { id := "prod-001", name := "Gold Card", ptype := "credit_card",
    description := "A rewards credit card", status := "",
    createdAt := "", updatedAt := "", deletedAt := "" }

/-- A concrete invalid product input: its `name` is missing (falsy). -/
def badProduct : DbProduct :=
  { id := "prod-002", name := "", ptype := "loan", description := "",
    status := "", createdAt := "", updatedAt := "", deletedAt := "" }

/-! ### Claim theorems -/

/-- C5: a `setCachedEmail(c, p, e)` at clock `t0` followed by
`getCachedEmail(c, p)` at clock `t1` returns `some e` while `t1 - t0` is
under one hour, and `none` once the clock has advanced past one hour. -/
theorem cache_set_get_ttl {E : Type} (cache : PreviewCache E) (t0 t1 : Nat)
    (c p : String) (e : E) :
    (t1 - t0 < cacheTTL →
      getCachedEmail (setCachedEmail cache t0 c p e) t1 c p = some e) ∧
    (t0 + cacheTTL ≤ t1 →
      getCachedEmail (setCachedEmail cache t0 c p e) t1 c p = none) := by
  constructor
  · intro h
    simp [getCachedEmail, setCachedEmail, List.lookup, h]
  · intro h
    have hnot : ¬ (t1 - t0 < cacheTTL) := by
      unfold cacheTTL at h ⊢
      omega
    simp [getCachedEmail, setCachedEmail, List.lookup, hnot]

/-- Witness for C5 at a concrete cache, clock and email. -/
theorem cache_set_get_ttl_witness :
    getCachedEmail (setCachedEmail ([] : PreviewCache Nat) 5 "cust" "prod" 42) 6
      "cust" "prod" = some 42 ∧
    getCachedEmail (setCachedEmail ([] : PreviewCache Nat) 5 "cust" "prod" 42)
      (5 + cacheTTL) "cust" "prod" = none :=
  ⟨(cache_set_get_ttl [] 5 6 "cust" "prod" 42).1 (by unfold cacheTTL; omega),
   (cache_set_get_ttl [] 5 (5 + cacheTTL) "cust" "prod" 42).2 (Nat.le_refl _)⟩

/-- C10: whenever the `active` key of the filters is defined — whatever its
value, `true` or `false` — every product `getProducts` returns has status
`active`; no value of the `active` key selects inactive products. -/
theorem getProducts_active_key_selects_only_active (db : ProductDb)
    (filters : ProductFilters) (b : Bool) (hactive : filters.active = some b) :
    ∀ q ∈ getProducts db filters, q.status = "active" := by
  intro q hq
  rcases filters with ⟨pt, st, ac, se⟩
  simp only at hactive
  subst hactive
  unfold getProducts at hq
  simp only at hq
  cases se with
  | none => simpa using (List.mem_filter.mp hq).2
  | some sq => simpa using (List.mem_filter.mp (List.mem_filter.mp hq).1).2

/-- Witness for C10: with `active: false` among the filters, a record the
call returns has status `active`. -/
theorem getProducts_active_key_witness :
    (stampProduct "T0" prodW).status = "active" :=
  getProducts_active_key_selects_only_active
    [stampProduct "T0" prodW, { prodW with id := "prod-009", status := "inactive" }]
    { active := some false } false rfl (stampProduct "T0" prodW) (by decide)

/-- C6: adding a valid product with a fresh id succeeds and stores exactly
the input record plus `createdAt`/`updatedAt` stamps and default status
`active`; `getProduct` returns that record, and a second `addProduct` with
the same id fails (returns `false`) and leaves the state — hence the stored
record — unchanged. -/
theorem addProduct_get_roundtrip_duplicate (db : ProductDb) (now now2 : String)
    (product : DbProduct) (hid : product.id ≠ "") (hname : product.name ≠ "")
    (htype : product.ptype ≠ "") (hstatus : product.status = "")
    (hfresh : ∀ q ∈ db, q.id ≠ product.id) :
    addProduct db now product = .ok (true, db ++ [stampProduct now product]) ∧
    getProduct (db ++ [stampProduct now product]) product.id =
      some (stampProduct now product) ∧
    (stampProduct now product).id = product.id ∧
    (stampProduct now product).name = product.name ∧
    (stampProduct now product).ptype = product.ptype ∧
    (stampProduct now product).description = product.description ∧
    (stampProduct now product).status = "active" ∧
    (stampProduct now product).createdAt = now ∧
    (stampProduct now product).updatedAt = now ∧
    addProduct (db ++ [stampProduct now product]) now2 product =
      .ok (false, db ++ [stampProduct now product]) := by
  have hvalid : ¬ (product.id = "" ∨ product.name = "" ∨ product.ptype = "") := by
    simp [hid, hname, htype]
  have hany : db.any (fun q => q.id = product.id) = false := by
    rw [List.any_eq_false]
    intro q hq
    simpa using hfresh q hq
  have hnone : db.find? (fun q => q.id = product.id) = none := by
    rw [List.find?_eq_none]
    intro q hq
    simpa using hfresh q hq
  refine ⟨?_, ?_, rfl, rfl, rfl, rfl, by simp [stampProduct, hstatus], rfl, rfl, ?_⟩
  · simp [addProduct, addProductTry, hvalid, hany]
  · simp [getProduct, List.find?_append, hnone, List.find?_cons, stampProduct]
  · have hany2 : (db ++ [stampProduct now product]).any
        (fun q => q.id = product.id) = true := by
      rw [List.any_append]
      simp [stampProduct]
    simp [addProduct, addProductTry, hvalid, hany2]

/-- Witness for C6 at a concrete product and empty store. -/
theorem addProduct_get_roundtrip_duplicate_witness :
    addProduct [] "T1" prodW = .ok (true, [stampProduct "T1" prodW]) ∧
    getProduct [stampProduct "T1" prodW] prodW.id = some (stampProduct "T1" prodW) ∧
    (stampProduct "T1" prodW).status = "active" ∧
    addProduct [stampProduct "T1" prodW] "T2" prodW =
      .ok (false, [stampProduct "T1" prodW]) := by
  have h := addProduct_get_roundtrip_duplicate [] "T1" "T2" prodW
    (by simp [prodW]) (by simp [prodW]) (by simp [prodW]) rfl (by simp)
  exact ⟨h.1, h.2.1, h.2.2.2.2.2.2.1, h.2.2.2.2.2.2.2.2.2⟩

/-- C8 counterexample: `addProduct` on a product with a missing name does
not raise any error at the caller — the internal `ValidationError` is caught
by the method's own `try/catch`, which logs it and returns `false`. -/
theorem addProduct_does_not_raise :
    ¬ ∃ msg, addProduct [] "T1" badProduct = Except.error msg := by
  rintro ⟨msg, h⟩
  simp [addProduct, addProductTry, badProduct] at h

/-- C8 (amended): `addProduct` detects a missing id/name/type or a duplicate
id by throwing internally, but the `try/catch` absorbs the error and the
method signals failure by returning `false` with the store unchanged;
`updateProduct` does the same for an absent id.  No error reaches the
caller. -/
theorem product_store_failures_return_false (db : ProductDb) (now now2 : String)
    (product : DbProduct) (missingId : String) (updates : DbProduct → DbProduct) :
    ((product.id = "" ∨ product.name = "" ∨ product.ptype = "") →
      addProductTry db now product = .error "Product must have id, name, and type" ∧
      addProduct db now product = .ok (false, db)) ∧
    (db.any (fun q => q.id = product.id) = true →
      addProduct db now product = .ok (false, db)) ∧
    (db.find? (fun q => q.id = missingId) = none →
      updateProductTry db now2 missingId updates =
        .error ("Product with ID " ++ missingId ++ " not found") ∧
      updateProduct db now2 missingId updates = .ok (false, db)) := by
  refine ⟨fun h => ?_, fun h => ?_, fun h => ?_⟩
  · have h1 : addProductTry db now product =
        .error "Product must have id, name, and type" := by
      simp only [addProductTry]
      rw [if_pos h]
    exact ⟨h1, by simp [addProduct, h1]⟩
  · by_cases hv : product.id = "" ∨ product.name = "" ∨ product.ptype = ""
    · have h1 : addProductTry db now product =
          .error "Product must have id, name, and type" := by
        simp only [addProductTry]
        rw [if_pos hv]
      simp [addProduct, h1]
    · have h1 : addProductTry db now product =
          .error ("Product with ID " ++ product.id ++ " already exists") := by
        simp only [addProductTry]
        rw [if_neg hv, if_pos h]
      simp [addProduct, h1]
  · have h1 : updateProductTry db now2 missingId updates =
        .error ("Product with ID " ++ missingId ++ " not found") := by
      simp only [updateProductTry, h]
    exact ⟨h1, by simp [updateProduct, h1]⟩

/-- Witness for the amended C8: all three failure modes at concrete inputs,
each returning `false` instead of raising. -/
theorem product_store_failures_return_false_witness :
    addProduct [] "T1" badProduct = .ok (false, []) ∧
    addProduct [stampProduct "T1" prodW] "T2" prodW =
      .ok (false, [stampProduct "T1" prodW]) ∧
    updateProduct [] "T1" "missing-id" (fun p => p) = .ok (false, []) :=
  ⟨((product_store_failures_return_false [] "T1" "T1" badProduct "x" (fun p => p)).1
      (by simp [badProduct])).2,
   (product_store_failures_return_false [stampProduct "T1" prodW] "T2" "T2" prodW "x"
      (fun p => p)).2.1 (by simp [stampProduct, prodW]),
   ((product_store_failures_return_false [] "T1" "T1" badProduct "missing-id"
      (fun p => p)).2.2 (by simp)).2⟩

/-- Anything `getProducts` returns is a record of the store: every filter
only narrows the value list. -/
theorem mem_of_mem_getProducts {db : ProductDb} {filters : ProductFilters}
    {q : DbProduct} (hq : q ∈ getProducts db filters) : q ∈ db := by
  rcases filters with ⟨pt, st, ac, se⟩
  unfold getProducts at hq
  cases pt <;> cases st <;> cases ac <;> cases se <;>
    simp_all only [List.mem_filter]

/-- C7: soft-deleting an existing product id leaves a record with that id
visible to `getProducts({status: 'inactive'})` and invisible to
`getProducts({active: true})`; hard-deleting it removes it from the result
of every `getProducts` call, whatever the filters. -/
theorem delete_visibility (db : ProductDb) (now id_ : String)
    (hmem : (db.find? (fun p => p.id = id_)).isSome = true) :
    ∃ db1, deleteProduct db now id_ false = .ok (true, db1) ∧
      (getProducts db1 { status := some "inactive" }).any (fun p => p.id = id_) = true ∧
      (∀ q ∈ getProducts db1 { active := some true }, q.id ≠ id_) ∧
      ∃ db2, deleteProduct db now id_ true = .ok (true, db2) ∧
        ∀ filters : ProductFilters, ∀ q ∈ getProducts db2 filters, q.id ≠ id_ := by
  obtain ⟨p0, hp0⟩ := Option.isSome_iff_exists.mp hmem
  have hp0id : p0.id = id_ := by simpa using List.find?_some hp0
  have hp0mem : p0 ∈ db := List.mem_of_find?_eq_some hp0
  refine ⟨db.map (fun p =>
      if p.id = id_ then { p with status := "inactive", deletedAt := now, updatedAt := now }
      else p), ?_, ?_, ?_, ?_⟩
  · simp [deleteProduct, deleteProductTry, hp0]
  · rw [List.any_eq_true]
    refine ⟨{ p0 with status := "inactive", deletedAt := now, updatedAt := now }, ?_, by simpa using hp0id⟩
    have hsoft : ({ p0 with status := "inactive", deletedAt := now, updatedAt := now }
        : DbProduct) ∈ db.map (fun p =>
          if p.id = id_ then { p with status := "inactive", deletedAt := now, updatedAt := now }
          else p) := by
      rw [List.mem_map]
      exact ⟨p0, hp0mem, by rw [if_pos hp0id]⟩
    unfold getProducts
    simpa [List.mem_filter] using hsoft
  · intro q hq
    unfold getProducts at hq
    simp only at hq
    have hq1 := List.mem_filter.mp hq
    obtain ⟨p1, hp1mem, hp1eq⟩ := List.mem_map.mp hq1.1
    have hstatus : q.status = "active" := by simpa using hq1.2
    by_cases hcase : p1.id = id_
    · rw [if_pos hcase] at hp1eq
      rw [← hp1eq] at hstatus
      simp at hstatus
    · rw [if_neg hcase] at hp1eq
      rw [← hp1eq]
      simpa using hcase
  · refine ⟨db.filter (fun p => ¬ p.id = id_), ?_, ?_⟩
    · simp [deleteProduct, deleteProductTry, hp0]
    · intro filters q hq
      have := List.mem_filter.mp (mem_of_mem_getProducts hq)
      simpa using this.2

/-- Witness for C7 at a concrete two-record store. -/
theorem delete_visibility_witness :
    ∃ db1, deleteProduct [stampProduct "T1" prodW, stampProduct "T1" badProduct]
        "T2" "prod-001" false = .ok (true, db1) ∧
      (getProducts db1 { status := some "inactive" }).any
        (fun p => p.id = "prod-001") = true ∧
      (∀ q ∈ getProducts db1 { active := some true }, q.id ≠ "prod-001") ∧
      ∃ db2, deleteProduct [stampProduct "T1" prodW, stampProduct "T1" badProduct]
          "T2" "prod-001" true = .ok (true, db2) ∧
        ∀ filters : ProductFilters, ∀ q ∈ getProducts db2 filters, q.id ≠ "prod-001" :=
  delete_visibility [stampProduct "T1" prodW, stampProduct "T1" badProduct] "T2"
    "prod-001" (by simp [stampProduct, prodW, List.find?])

/-- Concrete customer used by witnesses. -/
def cAlice : Customer :=
  { id := "c1", first_name := "Alice", last_name := "Smith",
    email := "alice@example.com", city := "Toronto", province := "ON",
    profile := "young professional", notes := "" }

/-- Concrete customer used by witnesses. -/
def cBob : Customer :=
  { id := "c2", first_name := "Bob", last_name := "Jones",
    email := "bob@example.com", city := "Ottawa", province := "ON",
    profile := "retiree", notes := "" }

/-- Concrete customer used by witnesses. -/
def cCarol : Customer :=
  { id := "c3", first_name := "Carol", last_name := "Lee",
    email := "carol@example.com", city := "Vancouver", province := "BC",
    profile := "student", notes := "" }

/-- Concrete parsed recommendation used by witnesses. -/
def cRec : Recommendation :=
  { recommendedProduct :=
      { productId := "prod-001", productName := "Gold Card",
        confidenceScore := 90, matchReason := "fits the profile" }
    personalizationInsights :=
      { primaryBenefit := "rewards", secondaryBenefits := [] }
    offerCustomization := { specialOffer := "" }
    emailSubject := "Your offer" }

/-- Concrete matching oracle used by the C9 witness: succeeds for Alice,
rejects for everyone else. -/
def aiW : Customer → List Unit → Except String Recommendation :=
  fun c _ => if c.first_name = "Alice" then .ok cRec else .error "service down"

/-- C9: the matcher returns one entry per customer, in input order; a failed
matching call is caught and recorded at its own position as a failed entry
(customer present, `success: false`, wrapped error message) without
aborting the remaining iterations. -/
theorem matcher_per_customer_isolation {P : Type}
    (ai : Customer → List P → Except String Recommendation) (matchedAt : String)
    (customers : List Customer) (products : List P) :
    (matchCustomersToProducts ai matchedAt customers products).length =
      customers.length ∧
    ∀ i (hi : i < customers.length),
      ∃ m, (matchCustomersToProducts ai matchedAt customers products)[i]? = some m ∧
        m.customer = customers[i] ∧
        (∀ e, ai customers[i] products = .error e →
          m.success = false ∧ m.error = "AI matching failed: " ++ e) ∧
        (∀ r, ai customers[i] products = .ok r →
          m = { customer := customers[i], success := true, recommendation := r,
                matchedAt := matchedAt, error := "" }) := by
  constructor
  · simp [matchCustomersToProducts]
  · intro i hi
    have hget : customers[i]? = some customers[i] := List.getElem?_eq_getElem hi
    unfold matchCustomersToProducts
    rw [List.getElem?_map, hget, Option.map_some']
    refine ⟨_, rfl, ?_, ?_, ?_⟩
    · cases hai : ai customers[i] products with
      | ok r => simp [matchSingleCustomer, hai]
      | error e => simp [matchSingleCustomer, hai]
    · intro e he
      simp [matchSingleCustomer, he]
    · intro r hr
      simp [matchSingleCustomer, hr]

/-- Witness for C9: with a two-customer list whose second matching call
rejects, the second output entry is a failed entry with the wrapped error
and the run still produces both entries. -/
theorem matcher_per_customer_isolation_witness :
    (matchCustomersToProducts aiW "T" [cAlice, cBob] ([] : List Unit)).length = 2 ∧
    ∃ m, (matchCustomersToProducts aiW "T" [cAlice, cBob] ([] : List Unit))[1]? = some m ∧
      m.customer = cBob ∧ m.success = false ∧
      m.error = "AI matching failed: service down" := by
  obtain ⟨hlen, hfor⟩ :=
    matcher_per_customer_isolation aiW "T" [cAlice, cBob] ([] : List Unit)
  obtain ⟨m, hm, hc, herr, -⟩ := hfor 1 (by simp)
  have hai : aiW ([cAlice, cBob][1]) ([] : List Unit) = .error "service down" := by
    simp [aiW, cAlice, cBob]
  exact ⟨hlen, m, hm, hc, (herr "service down" hai).1, (herr "service down" hai).2⟩

/-- The customers carried through the generation phase are exactly the
matches' customers, in order. -/
theorem generatePersonalizedEmails_customers (env : GenEnv) (matchList : List MatchItem) :
    (generatePersonalizedEmails env matchList).map (fun e => e.customer) =
      matchList.map (fun m => m.customer) := by
  unfold generatePersonalizedEmails
  rw [List.map_map]
  exact List.map_congr_left (fun m _ => generateEmailForMatch_customer env m)

/-- A concrete successfully generated email for a given customer. -/
def genEmailW (c : Customer) : GenEmail :=
  { customer := c
    matchItem := { customer := c, success := true, recommendation := cRec,
                   matchedAt := "T", error := "" }
    subject := "Your offer"
    content := "<p>offer</p>"
    personalizedProduct := default
    nudgingTechniques := []
    nudgeOptimized := true
    fallbackMode := false
    success := true
    error := "" }

/-- A concrete send environment whose batch API always rejects. -/
def envErr : SendEnv :=
  { batchSend := fun _ => .error "api down", sentAt := "T" }

/-- C3: with batch size `C = c + 1 > 0` and `N` valid (successfully
generated) emails, `sendEmails` is exactly the in-order concatenation of the
per-chunk outcomes over the `⌈N/C⌉ = (N + c) / (c + 1)` chunks; a chunk
whose batch call rejects is caught and recorded as one failure result per
recipient of that chunk, and — since the result is the flatten of
independent per-chunk results — never prevents any later chunk from being
processed. -/
theorem send_chunking_and_isolation (env : SendEnv) (options : SendOptions)
    (emails : List GenEmail) (c : Nat) (hsize : options.batchSize = c + 1)
    (hall : ∀ e ∈ emails, e.success = true) :
    sendEmails env options emails =
      ((chunkList c emails).map (processBatch env (effectiveFromName options))).flatten ∧
    (chunkList c emails).length = (emails.length + c) / (c + 1) ∧
    (chunkList c emails).flatten = emails ∧
    ∀ batch err,
      env.batchSend (batch.map (mkBatchPayload (effectiveFromName options))) =
        .error err →
      processBatch env (effectiveFromName options) batch =
        batch.map (batchFailureResult err) := by
  refine ⟨?_, chunkList_length c emails, chunkList_flatten c emails, ?_⟩
  · have hvalid : emails.filter (fun e => e.success) = emails :=
      List.filter_eq_self.mpr hall
    have hfail : emails.filter (fun e => !e.success) = [] := by
      rw [List.filter_eq_nil_iff]
      intro e he
      simp [hall e he]
    have hbs : effectiveBatchSize options = c + 1 := by
      simp [effectiveBatchSize, hsize]
    simp only [sendEmails, hvalid, hfail, List.map_nil, hbs, Nat.add_sub_cancel]
    cases emails with
    | nil => simp [chunkList, chunkListAux]
    | cons x rest =>
      simp only [List.isEmpty_cons, Bool.false_eq_true, if_false, List.nil_append]
      exact sendBatchesLoop_eq_flatten env (effectiveFromName options) c (x :: rest)
  · intro batch err herr
    simp [processBatch, herr]

/-- Witness for C3: three valid emails, batch size 2, an always-rejecting
batch API: two chunks are formed and a rejected chunk becomes one failure
per recipient. -/
theorem send_chunking_and_isolation_witness :
    sendEmails envErr { batchSize := 2 }
        [genEmailW cAlice, genEmailW cBob, genEmailW cCarol] =
      ((chunkList 1 [genEmailW cAlice, genEmailW cBob, genEmailW cCarol]).map
        (processBatch envErr (effectiveFromName { batchSize := 2 }))).flatten ∧
    (chunkList 1 [genEmailW cAlice, genEmailW cBob, genEmailW cCarol]).length = 2 ∧
    processBatch envErr (effectiveFromName { batchSize := 2 }) [genEmailW cAlice] =
      [genEmailW cAlice].map (batchFailureResult "api down") := by
  obtain ⟨h1, h2, h3, h4⟩ := send_chunking_and_isolation envErr { batchSize := 2 }
    [genEmailW cAlice, genEmailW cBob, genEmailW cCarol] 1 rfl (by decide)
  exact ⟨h1, by rw [h2]; rfl, h4 [genEmailW cAlice] "api down" rfl⟩

/-- C4: in the progress route's per-chunk send, each recipient's outcome is
computed by its own closure from its own send call; for a chunk of three
emails whose second send rejects, the chunk reports outcomes
`[success, failure, success]`, all three recipients are present in order,
and exactly two successes and one failure are reported. -/
theorem chunk_failure_isolation (send : EmailPayload → Except String ResendReply)
    (sentAt : String) (e1 e2 e3 : GenEmail) (r1 r3 : ResendReply) (msg : String)
    (h1 : send (mkRoutePayload e1) = .ok r1)
    (h2 : send (mkRoutePayload e2) = .error msg)
    (h3 : send (mkRoutePayload e3) = .ok r3) :
    (routeProcessBatch send sentAt [e1, e2, e3]).map (fun r => r.success) =
      [true, false, true] ∧
    (routeProcessBatch send sentAt [e1, e2, e3]).map (fun r => r.customer) =
      [e1.customer, e2.customer, e3.customer] ∧
    ((routeProcessBatch send sentAt [e1, e2, e3]).filter
      (fun r => r.success)).length = 2 ∧
    ((routeProcessBatch send sentAt [e1, e2, e3]).filter
      (fun r => !r.success)).length = 1 := by
  simp [routeProcessBatch, routeSendOne, h1, h2, h3, List.filter]

/-- Concrete single-send oracle for the C4 witness: rejects exactly the
payload addressed to Bob. -/
def sendW : EmailPayload → Except String ResendReply :=
  fun p => if p = mkRoutePayload (genEmailW cBob) then .error "insufficient balance"
           else .ok { dataId := "m1", topId := "" }

/-- Witness for C4 at a concrete chunk of three emails whose second send
rejects. -/
theorem chunk_failure_isolation_witness :
    (routeProcessBatch sendW "T"
        [genEmailW cAlice, genEmailW cBob, genEmailW cCarol]).map
      (fun r => r.success) = [true, false, true] ∧
    ((routeProcessBatch sendW "T"
        [genEmailW cAlice, genEmailW cBob, genEmailW cCarol]).filter
      (fun r => r.success)).length = 2 := by
  obtain ⟨h1, h2, h3, h4⟩ := chunk_failure_isolation sendW "T"
    (genEmailW cAlice) (genEmailW cBob) (genEmailW cCarol)
    { dataId := "m1", topId := "" } { dataId := "m1", topId := "" }
    "insufficient balance" (by simp [sendW]; decide) (by simp [sendW]) (by simp [sendW]; decide)
  exact ⟨h1, h3⟩

/-- A concrete successful match (Alice). -/
def mOk : MatchItem :=
  { customer := cAlice, success := true, recommendation := cRec,
    matchedAt := "T", error := "" }

/-- A concrete pre-existing failed match (Bob) with a non-empty error. -/
def mBad : MatchItem :=
  { customer := cBob, success := false, recommendation := default,
    matchedAt := "", error := "boom" }

/-- A concrete pre-existing failed match (Carol) whose error message is the
empty string (falsy). -/
def mBadEmpty : MatchItem :=
  { customer := cCarol, success := false, recommendation := default,
    matchedAt := "", error := "" }

/-- A concrete generation environment whose oracles always succeed. -/
def cGenEnvC : GenEnv :=
  { nudge := fun _ =>
      .ok { subject := "S", htmlContent := "H", plainTextContent := "P",
            nudgingTechniques := [] }
    engineGenerate := fun _ _ => .ok "E"
    now := 0
    expiryDate := "D" }

/-- A concrete send environment whose batch API fulfils every message. -/
def cSendEnvOk : SendEnv :=
  { batchSend := fun ps => .ok (ps.map (fun _ =>
      { id := "mid-1", error := "", message := "" }))
    sentAt := "T" }

/-- The batch API of `cSendEnvOk` returns one item per submitted message. -/
theorem cSendEnvOk_replyLengthOk : ReplyLengthOk cSendEnvOk := by
  intro ps items h
  simp only [cSendEnvOk, Except.ok.injEq] at h
  rw [← h, List.length_map]

/-- C1 counterexample: a dispatch run over `[success, failure]` returns its
two results with the failed match's entry first — the output item at
position 0 belongs to the input match at position 1, so positional order is
not preserved. -/
theorem dispatch_order_counterexample :
    (dispatchRun cGenEnvC cSendEnvOk {} [mOk, mBad]).map (fun r => r.customer) ≠
      [mOk, mBad].map (fun m => m.customer) := by
  decide

/-- C1 (amended): a dispatch run returns exactly one result per input match
and the results correspond 1:1 to the input matches — as a permutation, with
the entries of failed/ungenerated matches first (in input order) followed by
the send outcomes of the successfully generated emails (in input order) —
but not necessarily at the same positions. -/
theorem dispatch_length_and_correspondence (genv : GenEnv) (senv : SendEnv)
    (options : SendOptions) (matchList : List MatchItem)
    (hlen : ReplyLengthOk senv) :
    (dispatchRun genv senv options matchList).length = matchList.length ∧
    (dispatchRun genv senv options matchList).map (fun r => r.customer) =
      ((generatePersonalizedEmails genv matchList).filter (fun e => !e.success)).map
        (fun e => e.customer) ++
      ((generatePersonalizedEmails genv matchList).filter (fun e => e.success)).map
        (fun e => e.customer) ∧
    ((dispatchRun genv senv options matchList).map (fun r => r.customer)).Perm
      (matchList.map (fun m => m.customer)) := by
  have hmapfail : ∀ l : List GenEmail,
      (l.map genFailureResult).map (fun r => r.customer) =
        l.map (fun e => e.customer) := by
    intro l
    rw [List.map_map]
    rfl
  have hcust : (dispatchRun genv senv options matchList).map (fun r => r.customer) =
      ((generatePersonalizedEmails genv matchList).filter (fun e => !e.success)).map
        (fun e => e.customer) ++
      ((generatePersonalizedEmails genv matchList).filter (fun e => e.success)).map
        (fun e => e.customer) := by
    simp only [dispatchRun, sendEmails]
    by_cases hv : ((generatePersonalizedEmails genv matchList).filter
        (fun e => e.success)).isEmpty
    · rw [if_pos hv]
      rw [List.isEmpty_iff.mp hv]
      simp only [List.map_nil, List.append_nil]
      exact hmapfail _
    · rw [if_neg hv]
      rw [List.map_append, hmapfail,
        sendBatchesLoop_customers senv (effectiveFromName options) _ _ hlen]
  refine ⟨?_, hcust, ?_⟩
  · have h1 := congrArg List.length hcust
    rw [List.length_map, List.length_append, List.length_map, List.length_map] at h1
    have h2 := List.length_eq_length_filter_add
      (l := generatePersonalizedEmails genv matchList) (fun e => e.success)
    have h3 : (generatePersonalizedEmails genv matchList).length =
        matchList.length := by
      simp [generatePersonalizedEmails]
    omega
  · rw [hcust, ← List.map_append]
    have hperm := (filter_not_append_filter_perm
      (fun e => e.success) (generatePersonalizedEmails genv matchList)).map
      (fun e => e.customer)
    rw [generatePersonalizedEmails_customers] at hperm
    exact hperm

/-- Witness for the amended C1 at a concrete two-match run. -/
theorem dispatch_length_and_correspondence_witness :
    (dispatchRun cGenEnvC cSendEnvOk {} [mOk, mBad]).length = 2 ∧
    ((dispatchRun cGenEnvC cSendEnvOk {} [mOk, mBad]).map
      (fun r => r.customer)).Perm ([mOk, mBad].map (fun m => m.customer)) := by
  obtain ⟨h1, -, h3⟩ := dispatch_length_and_correspondence cGenEnvC cSendEnvOk {}
    [mOk, mBad] cSendEnvOk_replyLengthOk
  exact ⟨by rw [h1]; rfl, h3⟩

/-- C2 counterexample: a failed match whose original error message is the
empty string is not passed through unchanged — the send phase's
`email.error || 'Email generation failed'` replaces it, so no output entry
carries the original (empty) error. -/
theorem failed_match_error_replaced_counterexample :
    (dispatchRun cGenEnvC cSendEnvOk {} [mBadEmpty]).map
      (fun r => (r.customer, r.success, r.error)) =
      [(cCarol, false, "Email generation failed")] ∧
    ¬ ∃ r ∈ dispatchRun cGenEnvC cSendEnvOk {} [mBadEmpty],
        r.error = mBadEmpty.error := by
  constructor
  · decide
  · decide

/-- C2 (amended): a match arriving with `success: false` triggers no
generation call (its generated entry is the oracle-independent pass-through
of its customer and error) and no send call (it is not among the valid
emails the batch loop submits), and it appears in the dispatch output as a
failed entry carrying its original error message unchanged provided that
message is non-empty (an empty message is replaced by
`'Email generation failed'`). -/
theorem failed_match_passthrough (genv genv2 : GenEnv) (senv : SendEnv)
    (options : SendOptions) (matchList : List MatchItem) (i : Nat)
    (hi : i < matchList.length) (hfail : matchList[i].success = false)
    (herr : matchList[i].error ≠ "") :
    (generatePersonalizedEmails genv matchList)[i]? =
      some (failedGenEmail matchList[i].customer matchList[i].error) ∧
    (generatePersonalizedEmails genv matchList)[i]? =
      (generatePersonalizedEmails genv2 matchList)[i]? ∧
    failedGenEmail matchList[i].customer matchList[i].error ∉
      (generatePersonalizedEmails genv matchList).filter (fun e => e.success) ∧
    genFailureResult (failedGenEmail matchList[i].customer matchList[i].error) ∈
      dispatchRun genv senv options matchList ∧
    (genFailureResult (failedGenEmail matchList[i].customer
      matchList[i].error)).customer = matchList[i].customer ∧
    (genFailureResult (failedGenEmail matchList[i].customer
      matchList[i].error)).success = false ∧
    (genFailureResult (failedGenEmail matchList[i].customer
      matchList[i].error)).error = matchList[i].error := by
  have hgen : ∀ env : GenEnv, (generatePersonalizedEmails env matchList)[i]? =
      some (failedGenEmail matchList[i].customer matchList[i].error) := by
    intro env
    unfold generatePersonalizedEmails
    rw [List.getElem?_map, List.getElem?_eq_getElem hi, Option.map_some']
    simp [generateEmailForMatch, hfail]
  have hmem : failedGenEmail matchList[i].customer matchList[i].error ∈
      generatePersonalizedEmails genv matchList :=
    List.getElem?_mem (hgen genv)
  refine ⟨hgen genv, (hgen genv).trans (hgen genv2).symm, ?_, ?_, rfl, rfl, ?_⟩
  · intro hin
    have := (List.mem_filter.mp hin).2
    simp [failedGenEmail] at this
  · have hmemf : failedGenEmail matchList[i].customer matchList[i].error ∈
        (generatePersonalizedEmails genv matchList).filter (fun e => !e.success) :=
      List.mem_filter.mpr ⟨hmem, by simp [failedGenEmail]⟩
    have hres : genFailureResult (failedGenEmail matchList[i].customer
        matchList[i].error) ∈
        ((generatePersonalizedEmails genv matchList).filter
          (fun e => !e.success)).map genFailureResult :=
      List.mem_map_of_mem genFailureResult hmemf
    simp only [dispatchRun, sendEmails]
    by_cases hv : ((generatePersonalizedEmails genv matchList).filter
        (fun e => e.success)).isEmpty
    · rw [if_pos hv]
      exact hres
    · rw [if_neg hv]
      exact List.mem_append_left _ hres
  · simp [genFailureResult, failedGenEmail, herr]

/-- Witness for the amended C2 at a concrete one-match run with a non-empty
error message. -/
theorem failed_match_passthrough_witness :
    (generatePersonalizedEmails cGenEnvC [mBad])[0]? =
      some (failedGenEmail cBob "boom") ∧
    genFailureResult (failedGenEmail cBob "boom") ∈
      dispatchRun cGenEnvC cSendEnvOk {} [mBad] ∧
    (genFailureResult (failedGenEmail cBob "boom")).error = "boom" := by
  obtain ⟨h1, -, -, h4, -, -, h7⟩ := failed_match_passthrough cGenEnvC cGenEnvC
    cSendEnvOk {} [mBad] 0 (by simp) (by decide) (by decide)
  exact ⟨h1, h4, h7⟩

end CustomerApp
